import Mathlib

/-!
Verification of the `BlindEscrow` smart contract in
`src/contracts/agriblock.ts` (scrypt-ts).

Byte strings (the scrypt-ts `ByteString` hex strings) are modelled as lists
of natural numbers, one entry per byte. The ambient scrypt-ts library
primitives with cryptographic content (`hash160`, `hash256`,
`SECP256K1.verifySig`, `SECP256K1.pubKey2Point`) and the transaction
context of `this.checkSig` are abstracted as a record of functions
(`CryptoEnv`); everything else (`int2ByteString`, `byteString2Int`,
`reverseByteString`, the contract fields and the bodies of the public
methods `spend`, `buyCrops`, `sellCrops`) is embedded directly from the
source.
-/

namespace Agriblock

/-- A scrypt-ts `ByteString`: a sequence of bytes. -/
abbrev ByteString := List Nat

/-- Little-endian base-256 digits of a natural number, minimal length
(no trailing zero byte); the first argument is structural fuel, always
called with `fuel = n`, which is enough since the byte count of `n`
never exceeds `n` itself for `n ≥ 1`. -/
def natToLEAux : Nat → Nat → List Nat
  | 0, _ => []
  | fuel + 1, n => if n = 0 then [] else n % 256 :: natToLEAux fuel (n / 256)

/-- Little-endian base-256 magnitude bytes of a natural number; `0 ↦ []`. -/
def natToLE (n : Nat) : List Nat := natToLEAux n n

/-- scrypt-ts `int2ByteString(n)` with the size argument omitted: the
minimal sign-magnitude little-endian (script-number) serialization.
`0 ↦` empty string; positive `n ↦` little-endian magnitude bytes, with a
trailing `00` byte added only when the top magnitude byte has its high
bit set; negative `n` analogously with the sign bit `80`. -/
def int2ByteString (n : Int) : ByteString :=
  if n = 0 then []
  else
    let mag := natToLE n.natAbs
    if 128 ≤ mag.getLastD 0 then
      mag ++ [if n < 0 then 128 else 0]
    else if n < 0 then
      mag.dropLast ++ [mag.getLastD 0 + 128]
    else
      mag

/-- scrypt-ts `byteString2Int`: decode a sign-magnitude little-endian
script number. The high bit of the last byte is the sign; the magnitude
is the little-endian value of the bytes with that bit cleared. -/
def byteString2Int (b : ByteString) : Int :=
  match b.getLast? with
  | none => 0
  | some last =>
    let mag : Nat := Nat.ofDigits 256 (b.dropLast ++ [last % 128])
    if 128 ≤ last then -(mag : Int) else (mag : Int)

/-- scrypt-ts `reverseByteString(b, size)`: reverses a byte string whose
length is statically `size` (the size argument is a static bound and does
not change the value). -/
def reverseByteString (b : ByteString) (size : Nat) : ByteString :=
  b.reverse

/-- An oracle signature, `Signature` of scrypt-ts-lib: an ECDSA pair. -/
structure Signature where
  r : Int
  s : Int
  deriving DecidableEq

/-- The ambient cryptographic primitives and the transaction context of
the contract call, abstracted as functions: `hash160` and `hash256` of
scrypt-ts, `SECP256K1.pubKey2Point` and `SECP256K1.verifySig` of
scrypt-ts-lib, and `this.checkSig` (verification of the spender
signature against the enclosing transaction). -/
structure CryptoEnv where
  hash160 : ByteString → ByteString
  hash256 : ByteString → ByteString
  pubKey2Point : ByteString → Int × Int
  verifySig : Int → Signature → Int × Int → Bool
  checkSig : ByteString → ByteString → Bool

/-- The `BlindEscrow` contract instance: exactly the four `@prop` fields
set by the constructor and never assigned anywhere else in the class. -/
structure BlindEscrow where
  seller : ByteString
  buyer : ByteString
  arbiter : ByteString
  escrowNonce : ByteString
  deriving DecidableEq

/-- `BlindEscrow.RELEASE_BY_SELLER = 0n`. -/
def RELEASE_BY_SELLER : Int := 0

/-- `BlindEscrow.RELEASE_BY_ARBITER = 1n`. -/
def RELEASE_BY_ARBITER : Int := 1

/-- `BlindEscrow.RETURN_BY_BUYER = 2n`. -/
def RETURN_BY_BUYER : Int := 2

/-- `BlindEscrow.RETURN_BY_ARBITER = 3n`. -/
def RETURN_BY_ARBITER : Int := 3

/-- The failure taxonomy of the spec (section 7), one constructor per
distinct failure site of `spend`: the `exit(false)` of the invalid-action
branch, the two identity asserts (messages `Wrong spender pub key` and
`Wrong oracle pub key`), the oracle-signature assert (`Oracle sig
invalid`) and the spender-signature assert (`Spender sig invalid`). -/
inductive AuthError where
  | InvalidAction
  | SpenderIdentityMismatch
  | OracleIdentityMismatch
  | OracleSignatureInvalid
  | SpenderSignatureInvalid
  deriving DecidableEq

/-- The `Load correct addresses` if-chain of `spend`: maps the action to
the pair (required spender hash, required oracle hash), `none` on the
final else branch, which in the source is `exit(false)`. -/
def loadAddresses (self : BlindEscrow) (action : Int) :
    Option (ByteString × ByteString) :=
  if action = RELEASE_BY_SELLER then some (self.buyer, self.seller)
  else if action = RELEASE_BY_ARBITER then some (self.buyer, self.arbiter)
  else if action = RETURN_BY_BUYER then some (self.seller, self.buyer)
  else if action = RETURN_BY_ARBITER then some (self.seller, self.arbiter)
  else none

/-- The local `oracleMsg` of `spend`:
`this.escrowNonce + int2ByteString(action)`. -/
def oracleMsgOf (self : BlindEscrow) (action : Int) : ByteString :=
  self.escrowNonce ++ int2ByteString action

/-- The local `hashInt` of `spend`:
`byteString2Int(reverseByteString(hash256(oracleMsg), 32n) + toByteString(00))`. -/
def hashIntOf (env : CryptoEnv) (self : BlindEscrow) (action : Int) : Int :=
  byteString2Int
    (reverseByteString (env.hash256 (oracleMsgOf self action)) 32 ++ [0])

/-- The public method `BlindEscrow.spend`, embedded as a function from
the contract state and the call arguments to the call result paired with
the post-call contract state (the method body contains no assignment to
a field, so every branch returns the state unchanged). The checks appear
in source order: load addresses (else `exit(false)`), spender identity
assert, oracle identity assert, oracle signature assert, spender
signature assert. -/
def spend (env : CryptoEnv) (self : BlindEscrow) (spenderSig : ByteString)
    (spenderPubKey : ByteString) (oracleSig : Signature)
    (oraclePubKey : ByteString) (action : Int) :
    Except AuthError Unit × BlindEscrow :=
  match loadAddresses self action with
  | none => (Except.error AuthError.InvalidAction, self)
  | some (spender, oracle) =>
    if env.hash160 spenderPubKey = spender then
      if env.hash160 oraclePubKey = oracle then
        if env.verifySig (hashIntOf env self action) oracleSig
            (env.pubKey2Point oraclePubKey) then
          if env.checkSig spenderSig spenderPubKey then
            (Except.ok (), self)
          else (Except.error AuthError.SpenderSignatureInvalid, self)
        else (Except.error AuthError.OracleSignatureInvalid, self)
      else (Except.error AuthError.OracleIdentityMismatch, self)
    else (Except.error AuthError.SpenderIdentityMismatch, self)

/-- The public method `BlindEscrow.buyCrops`:
`assert(hash256(crops) == crops, incorrect type)`. No field is assigned,
so the contract state is returned unchanged. -/
def buyCrops (env : CryptoEnv) (self : BlindEscrow) (crops : ByteString) :
    Except String Unit × BlindEscrow :=
  (if env.hash256 crops = crops then Except.ok ()
   else Except.error "incorrect type", self)

/-- The public method `BlindEscrow.sellCrops`:
`assert(hash256(crops) == crops, incorrect price)`. No field is assigned,
so the contract state is returned unchanged. -/
def sellCrops (env : CryptoEnv) (self : BlindEscrow) (crops : ByteString) :
    Except String Unit × BlindEscrow :=
  (if env.hash256 crops = crops then Except.ok ()
   else Except.error "incorrect price", self)

/-- The hash-to-integer conversion in the words of the spec (section 6):
the double-hash of the oracle message, byte-order reversed, padded with
a trailing zero byte, then interpreted as an (unsigned, little-endian)
big integer. Stated on the digest `h`. -/
def hashToIntSpec (h : ByteString) : Int :=
  (Nat.ofDigits 256 (h.reverse ++ [0]) : Nat)

/-- A permissive concrete environment for witnesses: every hash is a
constant, both signature checks always succeed. -/
def Env0 : CryptoEnv where
  hash160 := fun _ => []
  hash256 := fun _ => List.replicate 32 0
  pubKey2Point := fun _ => (0, 0)
  verifySig := fun _ _ _ => true
  checkSig := fun _ _ => true

/-- A contract instance whose four fields are all empty, for witnesses. -/
def Self0 : BlindEscrow := ⟨[], [], [], []⟩

/-- A contract instance with pairwise distinct identity hashes, for
witnesses about identity mismatches. -/
def SelfW : BlindEscrow := ⟨[2], [1], [3], []⟩

/-- The nonce of the concrete scenario of the spec (section 8):
`001122334455aabbcc`. -/
def nonce0 : ByteString := [0x00, 0x11, 0x22, 0x33, 0x44, 0x55, 0xaa, 0xbb, 0xcc]

/-- A contract instance carrying the concrete nonce of the spec. -/
def SelfN : BlindEscrow := ⟨[], [], [], nonce0⟩

/-- A second witness instance: nonce `[0]`. -/
def SelfX : BlindEscrow := ⟨[], [], [], [0]⟩

/-- A third witness instance: nonce `[0, 1]`, which extends the nonce of
`SelfX` by one byte. -/
def SelfY : BlindEscrow := ⟨[], [], [], [0, 1]⟩

/-- A fourth witness instance: nonce `[1]`, same length as the nonce of
`SelfX`. -/
def SelfZ : BlindEscrow := ⟨[], [], [], [1]⟩

theorem append_ne_of_left_ne (n1 n2 s1 s2 : List Nat) (hne : n1 ≠ n2)
    (hlen : n1.length = n2.length) : n1 ++ s1 ≠ n2 ++ s2 := by
  intro h
  exact hne (List.append_inj h hlen).1

theorem append_ne_of_right_ne (n s1 s2 : List Nat) (hs : s1 ≠ s2) :
    n ++ s1 ≠ n ++ s2 := by
  intro h
  apply hs
  simpa using h

theorem byteString2Int_concat_zero (l : List Nat) :
    byteString2Int (l ++ [0]) = (Nat.ofDigits 256 l : Nat) := by
  unfold byteString2Int
  rw [List.getLast?_concat]
  dsimp only
  rw [List.dropLast_concat]
  norm_num [Nat.ofDigits_append]

/-- C2: the action-to-identity mapping used by `spend` is exactly the
table of section 3 of the spec: ReleaseBySeller (0) requires spender =
buyer and oracle = seller; ReleaseByArbiter (1) requires spender = buyer
and oracle = arbiter; ReturnByBuyer (2) requires spender = seller and
oracle = buyer; ReturnByArbiter (3) requires spender = seller and oracle
= arbiter — for every contract instance. -/
theorem spend_action_identity_table (self : BlindEscrow) :
    loadAddresses self 0 = some (self.buyer, self.seller) ∧
    loadAddresses self 1 = some (self.buyer, self.arbiter) ∧
    loadAddresses self 2 = some (self.seller, self.buyer) ∧
    loadAddresses self 3 = some (self.seller, self.arbiter) :=
  ⟨rfl, rfl, rfl, rfl⟩

/-- C1: for each of the four actions, if the spender public key hashes
to the required spender identity, the oracle public key hashes to the
required oracle identity, the oracle signature verifies under the oracle
public key over the hash-integer derived from `nonce || actionCode`, and
the spender signature passes the transaction signature check, then
`spend` succeeds. -/
theorem spend_success_all_checks (env : CryptoEnv) (self : BlindEscrow)
    (ssig spk : ByteString) (osig : Signature) (opk : ByteString)
    (action : Int) (sp orc : ByteString)
    (hload : loadAddresses self action = some (sp, orc))
    (hs : env.hash160 spk = sp)
    (ho : env.hash160 opk = orc)
    (hosig : env.verifySig (hashIntOf env self action) osig
      (env.pubKey2Point opk) = true)
    (hssig : env.checkSig ssig spk = true) :
    (spend env self ssig spk osig opk action).1 = Except.ok () := by
  unfold spend
  rw [hload]
  simp [hs, ho, hosig, hssig]

/-- Witness for C1: all checks pass at a concrete input, the spend is
authorized. -/
theorem spend_success_all_checks_witness :
    (spend Env0 Self0 [] [] ⟨0, 0⟩ [] 0).1 = Except.ok () :=
  spend_success_all_checks Env0 Self0 [] [] ⟨0, 0⟩ [] 0 [] [] rfl rfl rfl
    rfl rfl

/-- C3: for every action code outside `{0, 1, 2, 3}` and all values of
the other inputs and of the ambient primitives, `spend` fails with
`InvalidAction` (the full result, state included, is the same for every
environment: no identity or signature check influences it). -/
theorem spend_invalid_action (env : CryptoEnv) (self : BlindEscrow)
    (ssig spk : ByteString) (osig : Signature) (opk : ByteString)
    (action : Int) (h0 : action ≠ 0) (h1 : action ≠ 1) (h2 : action ≠ 2)
    (h3 : action ≠ 3) :
    spend env self ssig spk osig opk action =
      (Except.error AuthError.InvalidAction, self) := by
  unfold spend loadAddresses
  simp [RELEASE_BY_SELLER, RELEASE_BY_ARBITER, RETURN_BY_BUYER,
    RETURN_BY_ARBITER, h0, h1, h2, h3]

/-- Witness for C3: action 4 is rejected with `InvalidAction`. -/
theorem spend_invalid_action_witness :
    spend Env0 Self0 [] [] ⟨0, 0⟩ [] 4 =
      (Except.error AuthError.InvalidAction, Self0) :=
  spend_invalid_action Env0 Self0 [] [] ⟨0, 0⟩ [] 4 (by decide) (by decide)
    (by decide) (by decide)

/-- C9: the four fields fixed at construction are never modified: every
evaluation of `spend`, `buyCrops` and `sellCrops` returns the contract
state unchanged, regardless of its inputs and of whether it succeeds or
fails (the state is the structure holding exactly the four constructor
fields seller, buyer, arbiter, escrowNonce). -/
theorem methods_preserve_fields (env : CryptoEnv) (self : BlindEscrow)
    (ssig spk : ByteString) (osig : Signature) (opk : ByteString)
    (action : Int) (crops : ByteString) :
    (spend env self ssig spk osig opk action).2 = self ∧
    (buyCrops env self crops).2 = self ∧
    (sellCrops env self crops).2 = self := by
  refine ⟨?_, rfl, rfl⟩
  unfold spend
  rcases loadAddresses self action with _ | ⟨sp, orc⟩
  · rfl
  · dsimp only
    split_ifs <;> rfl

/-- C10: `buyCrops` and `sellCrops` each succeed if and only if the
double-hash of the argument equals the argument itself; since the
double-hash always has 32 bytes, both fail for every argument whose
length is not 32 bytes. -/
theorem crops_methods_fixed_point (env : CryptoEnv) (self : BlindEscrow)
    (crops : ByteString) (h32 : (env.hash256 crops).length = 32) :
    ((buyCrops env self crops).1 = Except.ok () ↔
      env.hash256 crops = crops) ∧
    ((sellCrops env self crops).1 = Except.ok () ↔
      env.hash256 crops = crops) ∧
    (crops.length ≠ 32 →
      (buyCrops env self crops).1 = Except.error "incorrect type" ∧
      (sellCrops env self crops).1 = Except.error "incorrect price") := by
  have hne : crops.length ≠ 32 → env.hash256 crops ≠ crops := by
    intro hlen h
    exact hlen (h ▸ h32)
  refine ⟨?_, ?_, ?_⟩
  · unfold buyCrops
    split_ifs with h <;> simp [h]
  · unfold sellCrops
    split_ifs with h <;> simp [h]
  · intro hlen
    have h := hne hlen
    unfold buyCrops sellCrops
    simp [h]

/-- Witness for C10: the empty byte string has length 0 ≠ 32 and both
methods reject it. -/
theorem crops_methods_fixed_point_witness :
    (buyCrops Env0 Self0 []).1 = Except.error "incorrect type" ∧
    (sellCrops Env0 Self0 []).1 = Except.error "incorrect price" :=
  (crops_methods_fixed_point Env0 Self0 [] (by decide)).2.2 (by decide)

/-- C7: for every valid action, `spend` fails with the spender-identity
error iff the hash160 of the spender public key differs from the
required spender hash, and with the oracle-identity error iff the
spender identity matches but the hash160 of the oracle public key
differs from the required oracle hash — independently of either
signature; consequently, supplying the correct keys with the roles
swapped, when the two required hashes differ, fails at the
spender-identity step and never succeeds. -/
theorem spend_identity_error_order (env : CryptoEnv) (self : BlindEscrow)
    (ssig spk : ByteString) (osig : Signature) (opk : ByteString)
    (action : Int) (sp orc : ByteString)
    (hload : loadAddresses self action = some (sp, orc)) :
    ((spend env self ssig spk osig opk action).1 =
        Except.error AuthError.SpenderIdentityMismatch ↔
      env.hash160 spk ≠ sp) ∧
    ((spend env self ssig spk osig opk action).1 =
        Except.error AuthError.OracleIdentityMismatch ↔
      (env.hash160 spk = sp ∧ env.hash160 opk ≠ orc)) ∧
    (sp ≠ orc → env.hash160 spk = orc → env.hash160 opk = sp →
      (spend env self ssig spk osig opk action).1 =
        Except.error AuthError.SpenderIdentityMismatch) := by
  unfold spend
  rw [hload]
  dsimp only
  split_ifs with h1 h2 h3 h4 <;> refine ⟨?_, ?_, ?_⟩ <;> simp_all

/-- Witness for C7: with every hash160 constant `[]` and required
spender hash `[1]`, the spend is rejected with the spender-identity
error. -/
theorem spend_identity_error_order_witness :
    (spend Env0 SelfW [] [] ⟨0, 0⟩ [] 0).1 =
      Except.error AuthError.SpenderIdentityMismatch :=
  (spend_identity_error_order Env0 SelfW [] [] ⟨0, 0⟩ [] 0 [1] [2]
    rfl).1.mpr (by decide)

/-- C5: for every fixed contract instance and every two distinct actions
in `{0, 1, 2, 3}`, the oracle message constructed for the one differs
from the oracle message constructed for the other. -/
theorem oracleMsg_cross_action_distinct (self : BlindEscrow) (a b : Int)
    (ha : a = 0 ∨ a = 1 ∨ a = 2 ∨ a = 3)
    (hb : b = 0 ∨ b = 1 ∨ b = 2 ∨ b = 3) (hab : a ≠ b) :
    oracleMsgOf self a ≠ oracleMsgOf self b := by
  unfold oracleMsgOf
  rcases ha with rfl | rfl | rfl | rfl <;>
    rcases hb with rfl | rfl | rfl | rfl <;>
      first
        | exact absurd rfl hab
        | exact append_ne_of_right_ne _ _ _ (by decide)

/-- Witness for C5: actions 0 and 1 on the concrete nonce of the spec
give distinct oracle messages. -/
theorem oracleMsg_cross_action_distinct_witness :
    oracleMsgOf SelfN 0 ≠ oracleMsgOf SelfN 1 :=
  oracleMsg_cross_action_distinct SelfN 0 1 (Or.inl rfl)
    (Or.inr (Or.inl rfl)) (by decide)

/-- Counterexample for C4: the claim fails as stated. The instance with
nonce `[0]` under action 1 and the instance with nonce `[0, 1]` under
action 0 have distinct nonces but the very same oracle message
`[0, 1]`, because the action is serialized with minimal width (action 0
serializes to the empty string). -/
theorem oracleMsg_cross_nonce_replay_cex :
    SelfX.escrowNonce ≠ SelfY.escrowNonce ∧
    oracleMsgOf SelfX 1 = oracleMsgOf SelfY 0 := by decide

/-- C4 (amended): for every two escrow instances with distinct nonces of
equal byte length, and all actions in `{0, 1, 2, 3}` on either side, the
oracle messages of the two instances are distinct. -/
theorem oracleMsg_cross_nonce_distinct (self1 self2 : BlindEscrow)
    (a b : Int) (ha : a = 0 ∨ a = 1 ∨ a = 2 ∨ a = 3)
    (hb : b = 0 ∨ b = 1 ∨ b = 2 ∨ b = 3)
    (hne : self1.escrowNonce ≠ self2.escrowNonce)
    (hlen : self1.escrowNonce.length = self2.escrowNonce.length) :
    oracleMsgOf self1 a ≠ oracleMsgOf self2 b :=
  append_ne_of_left_ne _ _ _ _ hne hlen

/-- Witness for C4 (amended): nonces `[0]` and `[1]` have equal length
and give distinct oracle messages under action 0. -/
theorem oracleMsg_cross_nonce_distinct_witness :
    oracleMsgOf SelfX 0 ≠ oracleMsgOf SelfZ 0 :=
  oracleMsg_cross_nonce_distinct SelfX SelfZ 0 0 (Or.inl rfl) (Or.inl rfl)
    (by decide) (by decide)

/-- Counterexample for C6: for the nonce `001122334455aabbcc` of the
concrete scenario and action ReleaseBySeller (0), the oracle message is
exactly the nonce — not the nonce followed by the byte `00` as claimed,
since `int2ByteString` serializes 0 to the empty string. -/
theorem oracleMsg_action0_cex :
    oracleMsgOf SelfN 0 = nonce0 ∧ oracleMsgOf SelfN 0 ≠ nonce0 ++ [0] := by
  decide

/-- C6 (amended): the oracle message is the nonce concatenated with the
minimal sign-magnitude serialization of the action code, which is empty
for action 0 and the single byte 01, 02, 03 for actions 1, 2, 3; in
particular for the nonce `001122334455aabbcc` and action ReleaseBySeller
the signed message is exactly the nonce with nothing appended. -/
theorem oracleMsg_encoding (self : BlindEscrow) :
    oracleMsgOf self 0 = self.escrowNonce ∧
    oracleMsgOf self 1 = self.escrowNonce ++ [1] ∧
    oracleMsgOf self 2 = self.escrowNonce ++ [2] ∧
    oracleMsgOf self 3 = self.escrowNonce ++ [3] ∧
    oracleMsgOf SelfN 0 = nonce0 := by
  have e0 : int2ByteString 0 = [] := by decide
  have e1 : int2ByteString 1 = [1] := by decide
  have e2 : int2ByteString 2 = [2] := by decide
  have e3 : int2ByteString 3 = [3] := by decide
  refine ⟨?_, ?_, ?_, ?_, by decide⟩ <;>
    simp [oracleMsgOf, e0, e1, e2, e3]

/-- C8: the integer against which the oracle signature is verified is
exactly the spec transform — the 32-byte double-hash of the oracle
message, byte-order reversed, a single zero byte appended, interpreted
as an unsigned little-endian big integer — and it equals the big-endian
value of the untransformed digest. -/
theorem hashInt_transform (env : CryptoEnv) (self : BlindEscrow)
    (action : Int)
    (h32 : (env.hash256 (oracleMsgOf self action)).length = 32) :
    hashIntOf env self action =
      hashToIntSpec (env.hash256 (oracleMsgOf self action)) ∧
    hashIntOf env self action =
      (Nat.ofDigits 256 (env.hash256 (oracleMsgOf self action)).reverse :
        Nat) := by
  unfold hashIntOf hashToIntSpec reverseByteString
  rw [byteString2Int_concat_zero]
  norm_num [Nat.ofDigits_append]

/-- Witness for C8: the transform identity at a concrete environment
whose double-hash is the 32-byte all-zero digest. -/
theorem hashInt_transform_witness :
    hashIntOf Env0 Self0 0 =
      hashToIntSpec (Env0.hash256 (oracleMsgOf Self0 0)) :=
  (hashInt_transform Env0 Self0 0 (by decide)).1

end Agriblock
